import Mathlib

set_option maxRecDepth 8192

/-!
Verification of the self-contained logic of the rticonnextdds-getting-started
examples: the command-line argument parser and signal-driven shutdown flag of
`1_hello_world/c++11/application.hpp`, the publisher write loop, and the
error-handling / teardown control flow of the `2_streaming_data/c++98`
publisher and subscriber.  The vendor DDS library itself is out of scope; its
calls are modelled by their outcomes (success / failure booleans).
-/

namespace RtiExamples

/-! ## C `atoi` (used by `parse_arguments` on every numeric flag value)

`atoi` skips leading whitespace, consumes an optional sign, then consumes a
best-effort run of decimal digits, stopping at the first non-digit; an empty
digit run yields 0.  Overflow (undefined in C) is not modelled; the claims
only involve values far below `INT_MAX`. -/

/-- The characters C's `isspace` accepts in the default locale. -/
def isSpaceChar (c : Char) : Bool :=
  c = ' ' || c = '\t' || c = '\n' || c = '\x0b' || c = '\x0c' || c = '\r'

/-- Accumulate a run of decimal digits, stopping at the first non-digit. -/
def digitRun : List Char → Int → Int
  | [], acc => acc
  | c :: cs, acc =>
      if c.isDigit then digitRun cs (10 * acc + (c.toNat - '0'.toNat : Nat))
      else acc

/-- The sign-then-digits part of `atoi`, after whitespace is skipped. -/
def atoiSigned : List Char → Int
  | [] => 0
  | c :: rest =>
      if c = '-' then - digitRun rest 0
      else if c = '+' then digitRun rest 0
      else digitRun (c :: rest) 0

/-- C `atoi`. -/
def atoi (s : String) : Int :=
  atoiSigned (s.data.dropWhile isSpaceChar)

/-- C conversion of a (possibly negative) `int` to `unsigned int`, as happens
when the `atoi` result is assigned to the `unsigned int` fields `domain_id`
and `sample_count` (reduction modulo 2^32). -/
def toUInt32 (n : Int) : Nat := (n % (2 ^ 32 : Int)).toNat

/-! ## The data of `application.hpp` -/

/-- `enum class ParseReturn` (application.hpp lines 38-42). -/
inductive ParseReturn where
  | PARSE_RETURN_OK
  | PARSE_RETURN_FAILURE
  | PARSE_RETURN_EXIT
deriving DecidableEq, Repr

/-- `rti::config::Verbosity` as used by the examples: either the default
`Verbosity::EXCEPTION` (application.hpp line 59) or a value obtained by
`static_cast` from an `atoi` result (lines 72-74). -/
inductive Verbosity where
  | EXCEPTION
  | fromRaw (raw : Int)
deriving DecidableEq, Repr

/-- `struct ApplicationArguments` (application.hpp lines 44-49). -/
structure ApplicationArguments where
  parse_result : ParseReturn
  domain_id : Nat
  sample_count : Nat
  verbosity : Verbosity
deriving DecidableEq, Repr

/-! ## `parse_arguments` (application.hpp lines 52-104)

The C++ loop scans `argv[1..argc-1]` with an index `arg_processing`, so we
embed it as a recursion over the token list `argv[1..]`.  A recognized value
flag consumes itself and the following token (`arg_processing += 2`); when a
value flag is the last token the C++ code reads `argv[arg_processing + 1]`
with `arg_processing + 1 = argc`, one past the end of the argument vector
(in C `argv[argc]` is a null pointer and `atoi(NULL)` is undefined); we model
that out-of-range read as `none`.  The returned `Bool` is `show_usage`, i.e.
whether the usage message is printed before returning. -/

/-- The three mutable value fields of the parser loop
(application.hpp lines 57-59). -/
structure ParseAcc where
  domain_id : Nat
  sample_count : Nat
  verbosity : Verbosity
deriving DecidableEq, Repr

/-- The initial values: domain 0, sample count 0 (infinite), verbosity
`EXCEPTION` (application.hpp lines 57-59). -/
def initAcc : ParseAcc :=
  { domain_id := 0, sample_count := 0, verbosity := Verbosity.EXCEPTION }

/-- Which value-taking flag a token is, following the `strcmp` chain of
application.hpp lines 62-75. -/
inductive FlagCat where
  | dom
  | sc
  | verb
deriving DecidableEq, Repr

/-- Classify a token against the value-taking flags `-d` or `--domain`,
`-s` or `--sample-count`, `-v` or `--verbosity`
(application.hpp lines 62-71). -/
def flagCat (t : String) : Option FlagCat :=
  if t == "-d" || t == "--domain" then some FlagCat.dom
  else if t == "-s" || t == "--sample-count" then some FlagCat.sc
  else if t == "-v" || t == "--verbosity" then some FlagCat.verb
  else none

/-- The `-h` or `--help` test of application.hpp lines 76-77. -/
def isHelpFlag (t : String) : Bool := t == "-h" || t == "--help"

/-- The assignment each value-taking flag performs on its following token
(application.hpp lines 64, 68, 72-74): `atoi` then conversion to the field
type (`unsigned int` for domain and sample count, enum cast for verbosity). -/
def setField : FlagCat → ParseAcc → String → ParseAcc
  | FlagCat.dom, a, v => { a with domain_id := toUInt32 (atoi v) }
  | FlagCat.sc, a, v => { a with sample_count := toUInt32 (atoi v) }
  | FlagCat.verb, a, v => { a with verbosity := Verbosity.fromRaw (atoi v) }

/-- Package the loop state into the returned record
(application.hpp line 103). -/
def mkResult (r : ParseReturn) (a : ParseAcc) : ApplicationArguments :=
  { parse_result := r, domain_id := a.domain_id, sample_count := a.sample_count,
    verbosity := a.verbosity }

/-- The `while (arg_processing < argc)` loop of application.hpp lines 61-88
plus the final return (lines 89-103), over the remaining tokens.  `none`
models the read of `argv[argc]` (out of range) that happens when a
value-taking flag is the final token. -/
def parse_loop : List String → ParseAcc → Option (ApplicationArguments × Bool)
  | [], a => some (mkResult ParseReturn.PARSE_RETURN_OK a, false)
  | t :: rest, a =>
      match flagCat t with
      | some c =>
          match rest with
          | [] => none
          | v :: rest2 => parse_loop rest2 (setField c a v)
      | none =>
          if isHelpFlag t then
            some (mkResult ParseReturn.PARSE_RETURN_EXIT a, true)
          else
            some (mkResult ParseReturn.PARSE_RETURN_FAILURE a, true)

/-- `parse_arguments` on the token list `argv[1..argc-1]`. -/
def parse_arguments (tokens : List String) : Option (ApplicationArguments × Bool) :=
  parse_loop tokens initAcc

/-- The early-exit decision at the top of `main`
(hello_world_publisher.cxx lines 67-72, and identically in the
temperature publisher/subscriber mains): `PARSE_RETURN_EXIT` returns
`EXIT_SUCCESS` (0), `PARSE_RETURN_FAILURE` returns `EXIT_FAILURE` (1), and
`PARSE_RETURN_OK` (`none` here) proceeds to `setup_signal_handlers` and
`run_example` — DDS entities are created only on that path. -/
def mainEarlyExit : ParseReturn → Option Nat
  | ParseReturn.PARSE_RETURN_EXIT => some 0
  | ParseReturn.PARSE_RETURN_FAILURE => some 1
  | ParseReturn.PARSE_RETURN_OK => none

/-! ## Helpers for stating the parser claims -/

/-- A token list made of flag-value pairs, e.g.
`[("-d", "5"), ("-s", "10")]` flattens to `["-d", "5", "-s", "10"]`. -/
def flattenPairs : List (String × String) → List String
  | [] => []
  | p :: ps => p.1 :: p.2 :: flattenPairs ps

/-- The cumulative effect of processing a list of flag-value pairs on the
parser's value fields (a pair whose flag is unrecognized does nothing; the
claims only use recognized flags). -/
def applyPairs : List (String × String) → ParseAcc → ParseAcc
  | [], a => a
  | p :: ps, a =>
      match flagCat p.1 with
      | some c => applyPairs ps (setField c a p.2)
      | none => applyPairs ps a

/-- The decimal value denoted by a digit string (spec side: "the integer
given after its flag"). -/
def decimalVal : List Char → Nat → Nat
  | [], acc => acc
  | c :: cs, acc => decimalVal cs (10 * acc + (c.toNat - '0'.toNat))

/-- A valid (non-negative, in-range) integer token: non-empty, all decimal
digits, value below 2^32 so the `unsigned int` assignment keeps it. -/
def validValue (v : String) : Prop :=
  v.data ≠ [] ∧ (∀ c ∈ v.data, c.isDigit = true) ∧ decimalVal v.data 0 < 2 ^ 32

instance (v : String) : Decidable (validValue v) := by
  unfold validValue; infer_instance

/-- The field a value-taking flag governs holds the number `n`. -/
def fieldEquals (c : FlagCat) (args : ApplicationArguments) (n : Nat) : Prop :=
  match c with
  | FlagCat.dom => args.domain_id = n
  | FlagCat.sc => args.sample_count = n
  | FlagCat.verb => args.verbosity = Verbosity.fromRaw (n : Int)

/-- Same statement on the loop state. -/
def accFieldEquals (c : FlagCat) (a : ParseAcc) (n : Nat) : Prop :=
  match c with
  | FlagCat.dom => a.domain_id = n
  | FlagCat.sc => a.sample_count = n
  | FlagCat.verb => a.verbosity = Verbosity.fromRaw (n : Int)

/-! ## The publisher write loop (hello_world_publisher.cxx lines 46-55,
temperature_publisher.cxx lines 109-127)

The loop guard reads the shutdown flag once per iteration; we model the
sequence of observed values as `running : Nat → Bool` (value read at the
check for iteration `count`). -/

/-- Guard of hello_world_publisher.cxx line 46:
`running && (count < sample_count || sample_count == 0)`. -/
def pubLoopCond (running : Nat → Bool) (sample_count count : Nat) : Bool :=
  running count && (decide (count < sample_count) || sample_count == 0)

/-- Guard of temperature_publisher.cxx line 110:
`running && ((sample_count == 0) || (count < sample_count))`. -/
def tempLoopCond (running : Nat → Bool) (sample_count count : Nat) : Bool :=
  running count && (sample_count == 0 || decide (count < sample_count))

/-- Fueled execution of the write loop: returns `some k` when the guard
first fails at `count = k` (so the body — one `write` plus the 4 second
sleep — ran exactly for counts `0 .. k-1`), `none` when the fuel runs out
before the guard fails. -/
def pubLoopRun (running : Nat → Bool) (sample_count : Nat) : Nat → Nat → Option Nat
  | 0, _ => none
  | fuel + 1, count =>
      if pubLoopCond running sample_count count then
        pubLoopRun running sample_count fuel (count + 1)
      else some count

/-! ## The shutdown flag (application.hpp lines 24-36)

`application::running` is initialised `true` (line 24); `stop_handler`
(lines 26-30), installed for SIGINT and SIGTERM (lines 34-35), sets it
`false`; no other statement in the repository ever writes it.  We model a
process lifetime as the list of events that touch or could touch the flag. -/

/-- The only write `stop_handler` performs: `running = false`,
whatever the previous value. -/
def stop_handler (_ : Bool) : Bool := false

/-- An event of the process lifetime: delivery of SIGINT or SIGTERM (the
handler runs), or any other program step (which does not write the flag). -/
inductive RunEvent where
  | signal
  | step
deriving DecidableEq, Repr

/-- Effect of one event on the flag. -/
def runStep (s : Bool) : RunEvent → Bool
  | RunEvent.signal => stop_handler s
  | RunEvent.step => s

/-- The flag's value after a sequence of events, starting from the
initializer `true` of application.hpp line 24. -/
def runningAfter (es : List RunEvent) : Bool := es.foldl runStep true

/-! ## Setup control flow of the streaming_data examples

Each vendor setup call either succeeds or fails; the environment records the
outcomes.  The trace lists, in order, the vendor calls made and the
`shutdown(participant, message, EXIT_FAILURE)` invocations (whose first
action is printing the message). -/

/-- An observable step of `run_example` setup. -/
inductive CallEv where
  | vendor (name : String)
  | shutdownMsg (msg : String)
deriving DecidableEq, Repr

/-- Outcomes of the vendor setup calls of temperature_subscriber.cxx
`run_example` (lines 64-144), in program order. -/
structure SubSetupEnv where
  create_participant_ok : Bool
  create_subscriber_ok : Bool
  register_type_ok : Bool
  create_topic_ok : Bool
  create_datareader_ok : Bool
  get_statuscondition_ok : Bool
  set_enabled_statuses_ok : Bool
  attach_condition_ok : Bool
  narrow_ok : Bool
deriving DecidableEq, Repr

/-- The `if (... failed) { shutdown(participant, msg, EXIT_FAILURE); }`
pattern of temperature_subscriber.cxx: the shutdown helper is invoked, but
there is no `return`, so execution falls through. -/
def errNoReturn (ok : Bool) (msg : String) : List CallEv :=
  if ok then [] else [CallEv.shutdownMsg msg]

/-- Setup trace of temperature_subscriber.cxx `run_example` (lines 64-144):
every failure check calls `shutdown` WITHOUT returning, so each subsequent
vendor call is made unconditionally. -/
def subscriberSetupTrace (e : SubSetupEnv) : List CallEv :=
  [CallEv.vendor "create_participant"]
    ++ errNoReturn e.create_participant_ok "create_participant error"
    ++ [CallEv.vendor "create_subscriber"]
    ++ errNoReturn e.create_subscriber_ok "create_subscriber error"
    ++ [CallEv.vendor "register_type"]
    ++ errNoReturn e.register_type_ok "register_type error"
    ++ [CallEv.vendor "create_topic"]
    ++ errNoReturn e.create_topic_ok "create_topic error"
    ++ [CallEv.vendor "create_datareader"]
    ++ errNoReturn e.create_datareader_ok "create_datareader error"
    ++ [CallEv.vendor "get_statuscondition"]
    ++ errNoReturn e.get_statuscondition_ok "get_statuscondition error"
    ++ [CallEv.vendor "set_enabled_statuses"]
    ++ errNoReturn e.set_enabled_statuses_ok "set_enabled_statuses error"
    ++ [CallEv.vendor "attach_condition"]
    ++ errNoReturn e.attach_condition_ok "attach_condition error"
    ++ [CallEv.vendor "narrow"]
    ++ errNoReturn e.narrow_ok "DataReader narrow error"

/-- Outcomes of the vendor setup calls of temperature_publisher.cxx
`run_example` (lines 39-105), in program order. -/
structure PubSetupEnv where
  create_participant_ok : Bool
  create_publisher_ok : Bool
  register_type_ok : Bool
  create_topic_ok : Bool
  create_datawriter_ok : Bool
  narrow_ok : Bool
  create_data_ok : Bool
deriving DecidableEq, Repr

/-- Setup trace of temperature_publisher.cxx `run_example` (lines 39-105):
every failure check does `return shutdown(participant, msg, EXIT_FAILURE)`,
so nothing further runs after a failure. -/
def publisherSetupTrace (e : PubSetupEnv) : List CallEv :=
  CallEv.vendor "create_participant" ::
  if !e.create_participant_ok then [CallEv.shutdownMsg "create_participant error"] else
  CallEv.vendor "create_publisher" ::
  if !e.create_publisher_ok then [CallEv.shutdownMsg "create_publisher error"] else
  CallEv.vendor "register_type" ::
  if !e.register_type_ok then [CallEv.shutdownMsg "register_type error"] else
  CallEv.vendor "create_topic" ::
  if !e.create_topic_ok then [CallEv.shutdownMsg "create_topic error"] else
  CallEv.vendor "create_datawriter" ::
  if !e.create_datawriter_ok then [CallEv.shutdownMsg "create_datawriter error"] else
  CallEv.vendor "narrow" ::
  if !e.narrow_ok then [CallEv.shutdownMsg "DataWriter narrow error"] else
  CallEv.vendor "create_data" ::
  if !e.create_data_ok then [CallEv.shutdownMsg "TemperatureTypeSupport create_data error"] else
  []

/-! ## Teardown status (temperature_publisher.cxx lines 143-170 and
lines 199-207) -/

/-- `EXIT_SUCCESS` of the C standard library. -/
def EXIT_SUCCESS : Nat := 0

/-- `EXIT_FAILURE` of the C standard library. -/
def EXIT_FAILURE : Nat := 1

/-- temperature_publisher.cxx `shutdown` (lines 143-170) as a function of
whether the participant pointer is non-NULL, the outcomes of the two delete
calls (made only when it is non-NULL), and the incoming status: each failed
delete overwrites `status` with `EXIT_FAILURE`. -/
def shutdownStatus (participant_present dce_ok dp_ok : Bool) (status : Nat) : Nat :=
  if participant_present then
    let status1 := if dce_ok then status else EXIT_FAILURE
    let status2 := if dp_ok then status1 else EXIT_FAILURE
    status2
  else status

/-- The `finalize_instance` escalation at the end of `main`
(temperature_publisher.cxx lines 201-205). -/
def finalizeStatus (finalize_ok : Bool) (status : Nat) : Nat :=
  if finalize_ok then status else EXIT_FAILURE

/-- The whole teardown pipeline: `shutdown` on the run status, then the
`finalize_instance` check in `main`. -/
def teardownStatus (present dce_ok dp_ok fin_ok : Bool) (status : Nat) : Nat :=
  finalizeStatus fin_ok (shutdownStatus present dce_ok dp_ok status)

/-! ## Parser loop unfolding lemmas -/

lemma help_eq (t : String) (h : isHelpFlag t = true) : t = "-h" ∨ t = "--help" := by
  simpa [isHelpFlag] using h

lemma flagCat_of_help (t : String) (h : isHelpFlag t = true) : flagCat t = none := by
  rcases help_eq t h with rfl | rfl <;> decide

lemma parse_loop_value (t v : String) (rest : List String) (a : ParseAcc) (c : FlagCat)
    (h : flagCat t = some c) :
    parse_loop (t :: v :: rest) a = parse_loop rest (setField c a v) := by
  simp [parse_loop, h]

lemma parse_loop_value_oob (t : String) (a : ParseAcc) (c : FlagCat)
    (h : flagCat t = some c) :
    parse_loop [t] a = none := by
  simp [parse_loop, h]

lemma parse_loop_help (t : String) (rest : List String) (a : ParseAcc)
    (h : isHelpFlag t = true) :
    parse_loop (t :: rest) a = some (mkResult ParseReturn.PARSE_RETURN_EXIT a, true) := by
  simp [parse_loop, flagCat_of_help t h, h]

lemma parse_loop_bad (t : String) (rest : List String) (a : ParseAcc)
    (h1 : flagCat t = none) (h2 : isHelpFlag t = false) :
    parse_loop (t :: rest) a = some (mkResult ParseReturn.PARSE_RETURN_FAILURE a, true) := by
  simp [parse_loop, h1, h2]

/-! ## Lemmas about `atoi` -/

lemma digitRun_not_digit (c : Char) (cs : List Char) (acc : Int)
    (h : c.isDigit = false) : digitRun (c :: cs) acc = acc := by
  simp [digitRun, h]

lemma digitRun_zero (cs : List Char) (h : ∀ c ∈ cs, c.isDigit = false) :
    digitRun cs 0 = 0 := by
  cases cs with
  | nil => rfl
  | cons c rest => exact digitRun_not_digit c rest 0 (h c (List.mem_cons_self c rest))

lemma mem_of_mem_dropWhile {p : Char → Bool} {l : List Char} {c : Char}
    (h : c ∈ l.dropWhile p) : c ∈ l :=
  (List.dropWhile_sublist p (l := l)).mem h

/-- `atoi` on a token with no digit characters at all gives 0 — the
best-effort conversion silently treats it as 0. -/
lemma atoi_no_digits (v : String) (h : ∀ c ∈ v.data, c.isDigit = false) :
    atoi v = 0 := by
  have hsub : ∀ c ∈ v.data.dropWhile isSpaceChar, c.isDigit = false :=
    fun c hc => h c (mem_of_mem_dropWhile hc)
  unfold atoi
  cases hd : v.data.dropWhile isSpaceChar with
  | nil => rfl
  | cons c rest =>
      rw [hd] at hsub
      have htail : ∀ x ∈ rest, x.isDigit = false :=
        fun x hx => hsub x (List.mem_cons_of_mem c hx)
      rw [atoiSigned]
      by_cases h1 : c = '-'
      · rw [if_pos h1, digitRun_zero rest htail]; rfl
      · rw [if_neg h1]
        by_cases h2 : c = '+'
        · rw [if_pos h2]; exact digitRun_zero rest htail
        · rw [if_neg h2]; exact digitRun_zero (c :: rest) hsub

lemma not_space_of_digit (c : Char) (h : c.isDigit = true) :
    isSpaceChar c = false := by
  by_contra hs
  have hs2 : isSpaceChar c = true := by simpa using hs
  have hmem : ((((c = ' ' ∨ c = '\t') ∨ c = '\n') ∨ c = '\x0b') ∨ c = '\x0c') ∨ c = '\r' := by
    simpa [isSpaceChar] using hs2
  rcases hmem with ((((rfl | rfl) | rfl) | rfl) | rfl) | rfl <;> exact absurd h (by decide)

lemma digit_ne_sign (c : Char) (h : c.isDigit = true) : c ≠ '-' ∧ c ≠ '+' := by
  constructor <;> rintro rfl <;> exact absurd h (by decide)

lemma dropWhile_space_of_digits (l : List Char) (h : ∀ c ∈ l, c.isDigit = true) :
    l.dropWhile isSpaceChar = l := by
  cases l with
  | nil => rfl
  | cons c rest =>
      have hns := not_space_of_digit c (h c (List.mem_cons_self c rest))
      simp [List.dropWhile_cons, hns]

lemma digitRun_eq_decimalVal (cs : List Char) :
    ∀ acc : Nat, (∀ c ∈ cs, c.isDigit = true) →
      digitRun cs (acc : Int) = (decimalVal cs acc : Int) := by
  induction cs with
  | nil => intro acc _; rfl
  | cons c rest ih =>
      intro acc h
      have hc : c.isDigit = true := h c (List.mem_cons_self c rest)
      rw [digitRun, if_pos hc, decimalVal]
      have hcast : (10 * (acc : Int) + ((c.toNat - '0'.toNat : Nat) : Int))
          = ((10 * acc + (c.toNat - '0'.toNat) : Nat) : Int) := by
        push_cast; ring
      rw [hcast]
      exact ih _ (fun x hx => h x (List.mem_cons_of_mem c hx))

/-- `atoi` on an all-digit token is exactly the decimal value it denotes. -/
lemma atoi_all_digits (v : String) (h1 : v.data ≠ [])
    (h2 : ∀ c ∈ v.data, c.isDigit = true) :
    atoi v = (decimalVal v.data 0 : Int) := by
  unfold atoi
  rw [dropWhile_space_of_digits v.data h2]
  cases hv : v.data with
  | nil => exact absurd hv h1
  | cons c rest =>
      rw [hv] at h2
      have hcd : c.isDigit = true := h2 c (List.mem_cons_self c rest)
      obtain ⟨hm, hp⟩ := digit_ne_sign c hcd
      rw [atoiSigned, if_neg hm, if_neg hp]
      simpa using digitRun_eq_decimalVal (c :: rest) 0 h2

lemma toUInt32_coe (k : Nat) (h : k < 2 ^ 32) : toUInt32 (k : Int) = k := by
  unfold toUInt32
  rw [Int.emod_eq_of_lt (by positivity) (by exact_mod_cast h)]
  simp

/-! ## Lemmas about flag-value pair lists -/

lemma setField_value (c : FlagCat) (a : ParseAcc) (v : String)
    (hval : validValue v) :
    accFieldEquals c (setField c a v) (decimalVal v.data 0) := by
  obtain ⟨h1, h2, h3⟩ := hval
  have ha : atoi v = (decimalVal v.data 0 : Int) := atoi_all_digits v h1 h2
  cases c <;> simp [setField, accFieldEquals, ha, toUInt32_coe _ h3]

lemma setField_other (c c2 : FlagCat) (hne : c ≠ c2) (a : ParseAcc) (v : String)
    (n : Nat) (h : accFieldEquals c a n) :
    accFieldEquals c (setField c2 a v) n := by
  cases c <;> cases c2 <;>
    first
      | exact absurd rfl hne
      | simpa [setField, accFieldEquals] using h

lemma applyPairs_preserves (ps : List (String × String)) (c : FlagCat) :
    ∀ a n, (∀ p ∈ ps, flagCat p.1 ≠ some c) → accFieldEquals c a n →
      accFieldEquals c (applyPairs ps a) n := by
  induction ps with
  | nil => intro a n _ h; exact h
  | cons p ps ih =>
      intro a n hps h
      have htail : ∀ q ∈ ps, flagCat q.1 ≠ some c :=
        fun q hq => hps q (List.mem_cons_of_mem p hq)
      cases hc : flagCat p.1 with
      | none => simp only [applyPairs, hc]; exact ih a n htail h
      | some c2 =>
          have hne : c ≠ c2 := fun he =>
            hps p (List.mem_cons_self p ps) (by rw [hc, he])
          simp only [applyPairs, hc]
          exact ih _ n htail (setField_other c c2 hne a p.2 n h)

lemma applyPairs_sets (ps : List (String × String)) :
    ∀ a, ps.Pairwise (fun p q => flagCat p.1 ≠ flagCat q.1) →
      ∀ p ∈ ps, ∀ c, flagCat p.1 = some c → validValue p.2 →
        accFieldEquals c (applyPairs ps a) (decimalVal p.2.data 0) := by
  induction ps with
  | nil => intro a _ p hp; simp at hp
  | cons q ps ih =>
      intro a hdist p hp c hc hval
      rw [List.pairwise_cons] at hdist
      obtain ⟨hq, hdist2⟩ := hdist
      rcases List.mem_cons.mp hp with rfl | hp2
      · simp only [applyPairs, hc]
        refine applyPairs_preserves ps c _ _ ?_ (setField_value c a p.2 hval)
        intro r hr hrc
        exact hq r hr (by rw [hc, hrc])
      · cases hqc : flagCat q.1 with
        | none => simp only [applyPairs, hqc]; exact ih _ hdist2 p hp2 c hc hval
        | some cq => simp only [applyPairs, hqc]; exact ih _ hdist2 p hp2 c hc hval

lemma parse_loop_flatten (ps : List (String × String)) :
    ∀ a, (∀ p ∈ ps, (flagCat p.1).isSome = true) →
      parse_loop (flattenPairs ps) a =
        some (mkResult ParseReturn.PARSE_RETURN_OK (applyPairs ps a), false) := by
  induction ps with
  | nil => intro a _; rfl
  | cons p ps ih =>
      intro a hflag
      have hsome := hflag p (List.mem_cons_self p ps)
      cases hc : flagCat p.1 with
      | none => rw [hc] at hsome; simp at hsome
      | some c =>
          rw [flattenPairs, parse_loop_value p.1 p.2 (flattenPairs ps) a c hc,
            ih (setField c a p.2) (fun q hq => hflag q (List.mem_cons_of_mem p hq))]
          simp only [applyPairs, hc]

/-! ## Lemma for in-bounds scanning -/

lemma parse_loop_isSome_of_bound :
    ∀ (n : Nat) (tokens : List String), tokens.length ≤ n →
      (∀ i, i < tokens.length → (flagCat (tokens.getD i "")).isSome = true →
        i + 1 < tokens.length) →
      ∀ a, (parse_loop tokens a).isSome = true := by
  intro n
  induction n with
  | zero =>
      intro tokens hlen _ a
      have hnil : tokens = [] := List.eq_nil_of_length_eq_zero (by omega)
      subst hnil; rfl
  | succ n ih =>
      intro tokens hlen h a
      cases tokens with
      | nil => rfl
      | cons t rest =>
          cases hc : flagCat t with
          | none =>
              cases hh : isHelpFlag t
              · rw [parse_loop_bad t rest a hc hh]; rfl
              · rw [parse_loop_help t rest a hh]; rfl
          | some c =>
              have h1lt : 0 + 1 < (t :: rest).length := by
                refine h 0 (by simp) ?_
                rw [List.getD_cons_zero, hc]; rfl
              cases rest with
              | nil => simp at h1lt
              | cons v rest2 =>
                  rw [parse_loop_value t v rest2 a c hc]
                  refine ih rest2 (by simp at hlen ⊢; omega) ?_ (setField c a v)
                  intro i hi hsome
                  have hstep := h (i + 2) (by simp; omega) ?_
                  · simp at hstep; omega
                  · rw [List.getD_cons_succ, List.getD_cons_succ]
                    exact hsome

/-! ## Lemmas for the publisher write loop -/

lemma pubLoopRun_reaches_limit (running : Nat → Bool) (sc : Nat) (hsc : 0 < sc)
    (hr : ∀ k, running k = true) :
    ∀ fuel count, count ≤ sc → sc - count < fuel →
      pubLoopRun running sc fuel count = some sc := by
  intro fuel
  induction fuel with
  | zero => intro count _ h2; omega
  | succ n ih =>
      intro count h1 h2
      by_cases heq : count = sc
      · subst heq
        have hcond : pubLoopCond running count count = false := by
          simp [pubLoopCond, hr count]
          omega
        simp [pubLoopRun, hcond]
      · have hlt : count < sc := lt_of_le_of_ne h1 heq
        have hcond : pubLoopCond running sc count = true := by
          simp [pubLoopCond, hr count, hlt]
        rw [pubLoopRun, if_pos hcond]
        exact ih (count + 1) (by omega) (by omega)

lemma pubLoopRun_unbounded (running : Nat → Bool) (hr : ∀ k, running k = true) :
    ∀ fuel count, pubLoopRun running 0 fuel count = none := by
  intro fuel
  induction fuel with
  | zero => intro count; rfl
  | succ n ih =>
      intro count
      have hcond : pubLoopCond running 0 count = true := by
        simp [pubLoopCond, hr count]
      rw [pubLoopRun, if_pos hcond]
      exact ih (count + 1)

lemma pubLoopRun_stops_on_flag (running : Nat → Bool) :
    ∀ fuel count k, pubLoopRun running 0 fuel count = some k →
      running k = false ∧ ∀ j, count ≤ j → j < k → running j = true := by
  intro fuel
  induction fuel with
  | zero => intro count k h; simp [pubLoopRun] at h
  | succ n ih =>
      intro count k h
      rw [pubLoopRun] at h
      by_cases hc : pubLoopCond running 0 count = true
      · rw [if_pos hc] at h
        have hrc : running count = true := by
          simpa [pubLoopCond] using hc
        obtain ⟨hk, hchain⟩ := ih (count + 1) k h
        refine ⟨hk, fun j hj1 hj2 => ?_⟩
        by_cases hjc : j = count
        · subst hjc; exact hrc
        · exact hchain j (by omega) hj2
      · rw [if_neg hc] at h
        have hk : count = k := by injection h
        subst hk
        have hrc : running count = false := by
          simpa [pubLoopCond] using hc
        exact ⟨hrc, fun j hj1 hj2 => by omega⟩

/-! ## Lemmas for the shutdown flag -/

lemma runStep_false (e : RunEvent) : runStep false e = false := by
  cases e <;> rfl

lemma foldl_runStep_false (es : List RunEvent) : es.foldl runStep false = false := by
  induction es with
  | nil => rfl
  | cons e es ih => rw [List.foldl_cons, runStep_false]; exact ih

/-! ## Claim theorems -/

/-- C10: on the empty token list `parse_arguments` returns the defaults —
domain 0, sample count 0 (infinite), verbosity `EXCEPTION` — with outcome
`PARSE_RETURN_OK` and without printing the usage message. -/
theorem parse_defaults_on_empty :
    parse_arguments [] =
      some ({ parse_result := ParseReturn.PARSE_RETURN_OK, domain_id := 0,
              sample_count := 0, verbosity := Verbosity.EXCEPTION }, false) := rfl

/-- C2: whenever the scanner reaches a token that is neither a value-taking
flag nor a help flag, it stops there — the result does not depend on the
remaining tokens — prints the usage message, and returns outcome
`PARSE_RETURN_FAILURE`; `main` then exits with code 1 before creating any
DDS entities; in particular on input `["-x"]`. -/
theorem unrecognized_flag_fails (t : String) (rest : List String) (a : ParseAcc)
    (h1 : flagCat t = none) (h2 : isHelpFlag t = false) :
    parse_loop (t :: rest) a = some (mkResult ParseReturn.PARSE_RETURN_FAILURE a, true) ∧
    mainEarlyExit ParseReturn.PARSE_RETURN_FAILURE = some 1 ∧
    parse_arguments ["-x"] =
      some (mkResult ParseReturn.PARSE_RETURN_FAILURE initAcc, true) :=
  ⟨parse_loop_bad t rest a h1 h2, rfl, by decide⟩

theorem unrecognized_flag_fails_witness :
    parse_loop ["-x", "-d"] initAcc =
      some (mkResult ParseReturn.PARSE_RETURN_FAILURE initAcc, true) ∧
    mainEarlyExit ParseReturn.PARSE_RETURN_FAILURE = some 1 ∧
    parse_arguments ["-x"] =
      some (mkResult ParseReturn.PARSE_RETURN_FAILURE initAcc, true) :=
  unrecognized_flag_fails "-x" ["-d"] initAcc (by decide) (by decide)

/-- C3: whenever the scanner reaches `-h` or `--help`, it stops there,
prints the usage message, and returns outcome `PARSE_RETURN_EXIT` no matter
what tokens follow; `main` then exits with code 0. -/
theorem help_flag_exits (t : String) (rest : List String) (a : ParseAcc)
    (h : isHelpFlag t = true) :
    parse_loop (t :: rest) a = some (mkResult ParseReturn.PARSE_RETURN_EXIT a, true) ∧
    mainEarlyExit ParseReturn.PARSE_RETURN_EXIT = some 0 :=
  ⟨parse_loop_help t rest a h, rfl⟩

theorem help_flag_exits_witness :
    parse_loop ["--help", "bogus", "-x"] initAcc =
      some (mkResult ParseReturn.PARSE_RETURN_EXIT initAcc, true) ∧
    mainEarlyExit ParseReturn.PARSE_RETURN_EXIT = some 0 :=
  help_flag_exits "--help" ["bogus", "-x"] initAcc (by decide)

/-- C4: the publisher write loop (identical guards in
hello_world_publisher.cxx line 46 and temperature_publisher.cxx line 110)
executes exactly `sample_count` iterations (counts `0 .. sample_count-1`)
and stops, when `sample_count > 0` and the shutdown flag stays true; with
`sample_count = 0` it never stops while the flag is true, and when it does
stop at count `k` the flag was observed false there, having been true at
every earlier check. -/
theorem publisher_loop_iterations (running : Nat → Bool) (sample_count : Nat) :
    (∀ count, pubLoopCond running sample_count count
        = tempLoopCond running sample_count count) ∧
    (0 < sample_count → (∀ k, running k = true) → ∀ fuel, sample_count < fuel →
      pubLoopRun running sample_count fuel 0 = some sample_count) ∧
    ((∀ k, running k = true) → ∀ fuel, pubLoopRun running 0 fuel 0 = none) ∧
    (∀ fuel k, pubLoopRun running 0 fuel 0 = some k →
      running k = false ∧ ∀ j, j < k → running j = true) := by
  refine ⟨?_, ?_, ?_, ?_⟩
  · intro count; simp [pubLoopCond, tempLoopCond, Bool.or_comm]
  · intro h1 h2 fuel h3
    exact pubLoopRun_reaches_limit running sample_count h1 h2 fuel 0 (by omega) (by omega)
  · intro h fuel
    exact pubLoopRun_unbounded running h fuel 0
  · intro fuel k h
    obtain ⟨h1, h2⟩ := pubLoopRun_stops_on_flag running fuel 0 k h
    exact ⟨h1, fun j hj => h2 j (Nat.zero_le j) hj⟩

theorem publisher_loop_iterations_witness :
    pubLoopRun (fun _ => true) 2 3 0 = some 2 ∧
    pubLoopRun (fun _ => true) 0 5 0 = none :=
  ⟨(publisher_loop_iterations (fun _ => true) 2).2.1 (by decide) (fun _ => rfl) 3 (by decide),
   (publisher_loop_iterations (fun _ => true) 0).2.2.1 (fun _ => rfl) 5⟩

/-- C5: the shutdown flag `application::running` starts `true`; the signal
handler only ever writes `false`; and once the flag is false it stays false
for the rest of the process lifetime, whatever events follow. -/
theorem running_flag_fire_once :
    runningAfter [] = true ∧
    (∀ s, stop_handler s = false) ∧
    (∀ es es2 : List RunEvent,
      runningAfter es = false → runningAfter (es ++ es2) = false) := by
  refine ⟨rfl, fun _ => rfl, fun es es2 h => ?_⟩
  unfold runningAfter at h ⊢
  rw [List.foldl_append, h]
  exact foldl_runStep_false es2

theorem running_flag_fire_once_witness :
    runningAfter ([RunEvent.signal] ++ [RunEvent.step]) = false :=
  running_flag_fire_once.2.2 [RunEvent.signal] [RunEvent.step] rfl

/-- C7 (evidence of the code bug): in temperature_subscriber.cxx the
failure checks call `shutdown(...)` without `return`, so after
`create_participant` fails the program still calls `create_subscriber` (on
the NULL participant) — there is no early return; the publisher, whose
checks do `return shutdown(...)`, stops at the failure as the claim says. -/
theorem subscriber_continues_after_create_failure :
    (subscriberSetupTrace
        ⟨false, true, true, true, true, true, true, true, true⟩).take 3 =
      [CallEv.vendor "create_participant",
        CallEv.shutdownMsg "create_participant error",
        CallEv.vendor "create_subscriber"] ∧
    publisherSetupTrace ⟨false, true, true, true, true, true, true⟩ =
      [CallEv.vendor "create_participant",
        CallEv.shutdownMsg "create_participant error"] := by
  decide

/-- C1: on a token list made purely of recognized value-taking flags, each
followed by a valid (all-digit, below 2^32) integer token, with no flag
category repeated, `parse_arguments` returns outcome `PARSE_RETURN_OK`, no
usage message, and every named field holds the integer written after its
flag; in particular `["-d", "5", "-s", "10"]` gives domain 5, sample count
10, default verbosity, outcome `PARSE_RETURN_OK`. -/
theorem parse_value_flag_lists (ps : List (String × String))
    (hflag : ∀ p ∈ ps, (flagCat p.1).isSome = true)
    (hval : ∀ p ∈ ps, validValue p.2)
    (hdist : ps.Pairwise (fun p q => flagCat p.1 ≠ flagCat q.1)) :
    (∃ args : ApplicationArguments,
      parse_arguments (flattenPairs ps) = some (args, false) ∧
      args.parse_result = ParseReturn.PARSE_RETURN_OK ∧
      ∀ p ∈ ps, ∀ c, flagCat p.1 = some c →
        fieldEquals c args (decimalVal p.2.data 0)) ∧
    parse_arguments ["-d", "5", "-s", "10"] =
      some ({ parse_result := ParseReturn.PARSE_RETURN_OK, domain_id := 5,
              sample_count := 10, verbosity := Verbosity.EXCEPTION }, false) := by
  constructor
  · refine ⟨mkResult ParseReturn.PARSE_RETURN_OK (applyPairs ps initAcc),
      parse_loop_flatten ps initAcc hflag, rfl, ?_⟩
    intro p hp c hc
    have hset := applyPairs_sets ps initAcc hdist p hp c hc (hval p hp)
    cases c <;> simpa [mkResult, fieldEquals, accFieldEquals] using hset
  · decide

theorem parse_value_flag_lists_witness :
    ((∃ args : ApplicationArguments,
      parse_arguments (flattenPairs [("-d", "5"), ("-s", "10")]) = some (args, false) ∧
      args.parse_result = ParseReturn.PARSE_RETURN_OK ∧
      ∀ p ∈ [("-d", "5"), ("-s", "10")], ∀ c, flagCat p.1 = some c →
        fieldEquals c args (decimalVal p.2.data 0)) ∧
    parse_arguments ["-d", "5", "-s", "10"] =
      some ({ parse_result := ParseReturn.PARSE_RETURN_OK, domain_id := 5,
              sample_count := 10, verbosity := Verbosity.EXCEPTION }, false)) :=
  parse_value_flag_lists [("-d", "5"), ("-s", "10")]
    (by decide) (by decide) (by decide)

/-- C6: if every token classified as a value-taking flag is followed by at
least one more token, the scan stays inside the given token list (no
out-of-range access, modelled by the result being `some`); and whenever the
scanner reaches a value-taking flag as the final token (so
`arg_processing + 1 = argc`), it reads one position past the end of the
list — the `none` result models that access to `argv[argc]`. -/
theorem parse_accesses_in_bounds (tokens : List String) :
    ((∀ i, i < tokens.length → (flagCat (tokens.getD i "")).isSome = true →
        i + 1 < tokens.length) →
      (parse_arguments tokens).isSome = true) ∧
    (∀ (t : String) (a : ParseAcc) (c : FlagCat),
      flagCat t = some c → parse_loop [t] a = none) := by
  constructor
  · intro h
    exact parse_loop_isSome_of_bound tokens.length tokens le_rfl h initAcc
  · intro t a c hc
    exact parse_loop_value_oob t a c hc

theorem parse_accesses_in_bounds_witness :
    (parse_arguments ["-d", "5"]).isSome = true ∧
    parse_loop ["-d"] initAcc = none :=
  ⟨(parse_accesses_in_bounds ["-d", "5"]).1 (by decide),
   (parse_accesses_in_bounds ["-d", "5"]).2 "-d" initAcc FlagCat.dom (by decide)⟩

/-- C9: when a value-taking flag is followed by a token containing no digit
at all, `atoi` silently converts it to 0, the flag's field is set to 0, the
scan consumes both tokens and continues with the rest, and the outcome is
not turned into a failure; in particular `["-d", "abc"]` parses to outcome
`PARSE_RETURN_OK` with domain 0. -/
theorem nonnumeric_value_parses_as_zero (t v : String) (rest : List String)
    (a : ParseAcc) (c : FlagCat) (hc : flagCat t = some c)
    (hv : ∀ ch ∈ v.data, ch.isDigit = false) :
    atoi v = 0 ∧
    parse_loop (t :: v :: rest) a = parse_loop rest (setField c a v) ∧
    accFieldEquals c (setField c a v) 0 ∧
    parse_arguments ["-d", "abc"] =
      some ({ parse_result := ParseReturn.PARSE_RETURN_OK, domain_id := 0,
              sample_count := 0, verbosity := Verbosity.EXCEPTION }, false) := by
  have h0 := atoi_no_digits v hv
  refine ⟨h0, parse_loop_value t v rest a c hc, ?_, by decide⟩
  cases c <;> simp [setField, accFieldEquals, h0, toUInt32]

theorem nonnumeric_value_parses_as_zero_witness :
    atoi "abc" = 0 ∧
    parse_loop ["-d", "abc"] initAcc =
      parse_loop [] (setField FlagCat.dom initAcc "abc") ∧
    accFieldEquals FlagCat.dom (setField FlagCat.dom initAcc "abc") 0 ∧
    parse_arguments ["-d", "abc"] =
      some ({ parse_result := ParseReturn.PARSE_RETURN_OK, domain_id := 0,
              sample_count := 0, verbosity := Verbosity.EXCEPTION }, false) :=
  nonnumeric_value_parses_as_zero "-d" "abc" [] initAcc FlagCat.dom
    (by decide) (by decide)

/-- C8: the teardown pipeline (the `shutdown` helper followed by the
`finalize_instance` check in `main`) yields `EXIT_FAILURE` exactly when the
incoming status was already `EXIT_FAILURE` or some cleanup call that was
actually made failed, and passes the incoming status through unchanged
otherwise; in particular a failure status is never converted back to
success. -/
theorem teardown_monotone (present dce_ok dp_ok fin_ok : Bool) (status : Nat) :
    teardownStatus present dce_ok dp_ok fin_ok status =
      if status = EXIT_FAILURE ∨ (present = true ∧ (dce_ok = false ∨ dp_ok = false))
          ∨ fin_ok = false
      then EXIT_FAILURE else status := by
  cases present <;> cases dce_ok <;> cases dp_ok <;> cases fin_ok <;>
    by_cases h : status = EXIT_FAILURE <;>
      simp [teardownStatus, shutdownStatus, finalizeStatus, h]

end RtiExamples
